import Mathlib

/-!
Verification development for the fem-ag-countries application core.

The embedding below translates the state-synchronization and navigation
engine of `src/main.ts` (the Proxy-based reactive snapshot documented in the
repository README): the `AppState` record, the reactive Proxy setter that
recomputes `filteredCountries` on every write to `countries`, `searchTerm`
or `regionFilter` and then renders, the hash router (`handleRouting`), the
fetch success/failure paths, the dark-mode initialization and toggle, and
the border-name lookup of the detail view.

Rendering is modelled by recording, at each render call, a snapshot of the
state that was rendered (`Sys.renders`); `window.location.hash` is the
`Sys.hash` field; `localStorage.getItem('darkMode')` is `Sys.store`;
`window.scrollTo` is counted in `Sys.scrollCount`.
-/

namespace FemCountries

/-- Substring test on character lists: does the second list occur
contiguously inside the first? `leadsWith n h` checks that `n` starts `h`. -/
def leadsWith : List Char → List Char → Bool
  | [], _ => true
  | _ :: _, [] => false
  | a :: as, b :: bs => a == b && leadsWith as bs

/-- Does `needle` occur contiguously somewhere in the list? -/
def hasSub (needle : List Char) : List Char → Bool
  | [] => leadsWith needle []
  | c :: t => leadsWith needle (c :: t) || hasSub needle t

/-- Model of JavaScript `hay.includes(needle)` (substring containment). -/
def strIncludes (hay needle : String) : Bool :=
  hasSub needle.data hay.data

/-- Model of JavaScript `s.toLowerCase()` (ASCII case folding), written
structurally on the character list so that concrete instances evaluate in
the kernel. -/
def strToLower (s : String) : String :=
  ⟨s.data.map Char.toLower⟩

/-- Model of the `name` field of the fetched `Country` interface
(`{ common: string; nativeName?: Record<string, {common}> }`); records are
modelled as association lists. -/
structure CountryName where
  common : String
  nativeName : Option (List (String × String))
deriving DecidableEq, Repr

/-- Model of the `flags` field (`{ svg: string; png: string }`). -/
structure CountryFlags where
  svg : String
  png : String
deriving DecidableEq, Repr

/-- Model of the `Country` interface of `src/main.ts`. -/
structure Country where
  name : CountryName
  population : Nat
  region : String
  capital : Option (List String)
  flags : CountryFlags
  cca3 : String
  subregion : Option String
  currencies : Option (List (String × String))
  languages : Option (List (String × String))
  borders : Option (List String)
deriving DecidableEq, Repr

/-- Model of the `AppState` interface of `src/main.ts`. -/
structure AppState where
  countries : List Country
  filteredCountries : List Country
  loading : Bool
  error : Option String
  darkMode : Bool
  selectedCountry : Option Country
  searchTerm : String
  regionFilter : String
deriving DecidableEq, Repr

/-- The derived-state computation performed inside the Proxy `set` trap of
`createState` whenever `countries`, `searchTerm` or `regionFilter` is
written (`src/main.ts`):
`s.filteredCountries = s.countries.filter(country => matchesSearch && matchesRegion)`
with `matchesSearch = country.name.common.toLowerCase().includes(s.searchTerm)`
and `matchesRegion = s.regionFilter ? country.region === s.regionFilter : true`. -/
def derive (countries : List Country) (searchTerm regionFilter : String) :
    List Country :=
  countries.filter fun country =>
    strIncludes (strToLower country.name.common) searchTerm &&
    (if regionFilter = "" then true else country.region == regionFilter)

/-- Written from the SPEC's words (section 4.2 / section 8), for the refinement
comparison of claim C1: an entity is visible iff its `displayName`
case-insensitively contains `searchText` (both sides lowered) and its
`category` equals `categoryFilter` or the filter is the empty string. -/
def specVisible (searchText categoryFilter : String) (e : Country) : Bool :=
  strIncludes (strToLower e.name.common) (strToLower searchText) &&
  (categoryFilter == "" || e.region == categoryFilter)

/-- The whole modelled system: the reactive `state` object, the location
hash, the persisted dark-mode preference, the scroll counter, and the log of
state snapshots handed to the external renderer (one entry per call of
`render(AppView(), document.body)` inside the Proxy trap). -/
structure Sys where
  state : AppState
  hash : String
  store : Option String
  scrollCount : Nat
  renders : List AppState
deriving DecidableEq, Repr

/-- One render call: the renderer receives the current state snapshot. -/
def pushRender (sys : Sys) (st : AppState) : Sys :=
  { sys with state := st, renders := sys.renders ++ [st] }

/-- Recompute `filteredCountries` from the current raw fields (the
"Derived State Logic" branch of the Proxy trap). -/
def deriveUpdate (st : AppState) : AppState :=
  { st with filteredCountries := derive st.countries st.searchTerm st.regionFilter }

/-- Proxy write `state.countries = v`: write, recompute derived state,
render. -/
def setCountries (v : List Country) (sys : Sys) : Sys :=
  pushRender sys (deriveUpdate { sys.state with countries := v })

/-- Proxy write `state.searchTerm = v`: write, recompute derived state,
render. -/
def setSearchTerm (v : String) (sys : Sys) : Sys :=
  pushRender sys (deriveUpdate { sys.state with searchTerm := v })

/-- Proxy write `state.regionFilter = v`: write, recompute derived state,
render. -/
def setRegionFilter (v : String) (sys : Sys) : Sys :=
  pushRender sys (deriveUpdate { sys.state with regionFilter := v })

/-- Proxy write `state.loading = v` (not a derivation trigger): write,
render. -/
def setLoading (v : Bool) (sys : Sys) : Sys :=
  pushRender sys { sys.state with loading := v }

/-- Proxy write `state.error = v` (not a derivation trigger): write,
render. -/
def setError (v : Option String) (sys : Sys) : Sys :=
  pushRender sys { sys.state with error := v }

/-- Proxy write `state.darkMode = v` (not a derivation trigger): write,
render. -/
def setDarkMode (v : Bool) (sys : Sys) : Sys :=
  pushRender sys { sys.state with darkMode := v }

/-- Proxy write `state.selectedCountry = v` (not a derivation trigger):
write, render. -/
def setSelectedCountry (v : Option Country) (sys : Sys) : Sys :=
  pushRender sys { sys.state with selectedCountry := v }

/-- Model of `handleRouting` (`src/main.ts`): read the location hash; on a
non-empty hash look the token up by `cca3`; select the match (and scroll to
top) or clear the selection; on an empty hash clear the selection.
The source writes `if (hash) {...} else {...}`; hash truthiness is
non-emptiness, so the branches appear here under `hash = ""` swapped. -/
def handleRouting (sys : Sys) : Sys :=
  if sys.hash = "" then
    setSelectedCountry none sys
  else
    match sys.state.countries.find? (fun c => c.cca3 == sys.hash) with
    | some c =>
      let sys2 := setSelectedCountry (some c) sys
      { sys2 with scrollCount := sys2.scrollCount + 1 }
    | none => setSelectedCountry none sys

/-- An external navigation event: the location mechanism sets the hash to
`token` and the `hashchange` listener runs `handleRouting`. Writing the hash
from inside the app (card link, border link, Back button) reaches the same
point. -/
def onHashChange (token : String) (sys : Sys) : Sys :=
  handleRouting { sys with hash := token }

/-- Model of `handleSearch`: `state.searchTerm = this.value.toLowerCase()`. -/
def handleSearch (value : String) (sys : Sys) : Sys :=
  setSearchTerm (strToLower value) sys

/-- Model of `handleRegionFilter`: `state.regionFilter = this.value`. -/
def handleRegionFilter (value : String) (sys : Sys) : Sys :=
  setRegionFilter value sys

/-- Model of `toggleDarkMode`: flip the flag through the Proxy, then persist
the new value to the preference store as the string `"true"` or `"false"`. -/
def toggleDarkMode (sys : Sys) : Sys :=
  let sys2 := setDarkMode (!sys.state.darkMode) sys
  { sys2 with store := some (if sys2.state.darkMode then "true" else "false") }

/-- Model of the success path of `fetchCountriesData`:
`state.countries = data; state.loading = false; handleRouting()`. -/
def fetchSuccess (data : List Country) (sys : Sys) : Sys :=
  handleRouting (setLoading false (setCountries data sys))

/-- Model of the failure path of `fetchCountriesData` (the `catch` block):
`state.error = err.message; state.loading = false`. No retry is attempted
and the exception is swallowed. -/
def fetchFailure (msg : String) (sys : Sys) : Sys :=
  setLoading false (setError (some msg) sys)

/-- Model of `goBack`: `window.location.hash = ''`, which fires the
`hashchange` listener. -/
def goBack (sys : Sys) : Sys :=
  onHashChange "" sys

/-- Model of the dark-mode start-up decision (`src/main.ts`):
`localStorage.getItem('darkMode') === 'true' || (!('darkMode' in localStorage) && window.matchMedia('(prefers-color-scheme: dark)').matches)`. -/
def darkModeInit (stored : Option String) (systemPrefersDark : Bool) : Bool :=
  stored == some "true" || (stored == none && systemPrefersDark)

/-- Model of the `getBorderName` helper of `DetailView`: look the border
code up by `cca3` and fall back to the raw code as the label. -/
def getBorderName (countries : List Country) (code : String) : String :=
  match countries.find? (fun c => c.cca3 == code) with
  | some c => c.name.common
  | none => code

/-- Which top-level view `AppView` renders:
`state.selectedCountry ? DetailView(state.selectedCountry) : HomeView()`. -/
inductive ViewKind where
  | home
  | detail
deriving DecidableEq, Repr

/-- The view chosen by `AppView` from a state snapshot. -/
def currentView (st : AppState) : ViewKind :=
  match st.selectedCountry with
  | some _ => .detail
  | none => .home

/-- The abstract NavigationState of the spec (section 4.3). -/
inductive NavState where
  | unselected
  | selected (id : String)
  | pendingUnresolved (token : String)
deriving DecidableEq, Repr

/-- Abstraction of the concrete machine to the spec's NavigationState: an
empty hash is Unselected; a non-empty hash with a resolved selection is
Selected; a non-empty hash with no selection is PendingUnresolved while the
initial load is still in flight, and Unselected (resolve failed) once the
load has settled. -/
def navState (sys : Sys) : NavState :=
  if sys.hash = "" then .unselected
  else
    match sys.state.selectedCountry with
    | some c => .selected c.cca3
    | none => if sys.state.loading then .pendingUnresolved sys.hash else .unselected

/-- The discrete external events the single-threaded core reacts to. -/
inductive Op where
  | search (value : String)
  | region (value : String)
  | navigate (token : String)
  | back
  | fetchSuccess (data : List Country)
  | fetchFailure (msg : String)
  | toggleDark
deriving Repr

/-- Dispatch one external event to its handler. -/
def applyOp : Op → Sys → Sys
  | .search v, sys => handleSearch v sys
  | .region v, sys => handleRegionFilter v sys
  | .navigate t, sys => onHashChange t sys
  | .back, sys => goBack sys
  | .fetchSuccess d, sys => fetchSuccess d sys
  | .fetchFailure m, sys => fetchFailure m sys
  | .toggleDark, sys => toggleDarkMode sys

/-- Run a sequence of external events. -/
def run (ops : List Op) (sys : Sys) : Sys :=
  ops.foldl (fun s op => applyOp op s) sys

/-- The initial `state` object literal passed to `createState`. -/
def initialState : AppState :=
  { countries := []
    filteredCountries := []
    loading := true
    error := none
    darkMode := false
    selectedCountry := none
    searchTerm := ""
    regionFilter := "" }

/-- The system at start-up, before any event: the initial state object, the
initial location hash (possibly a deep link), the stored preference,
nothing scrolled, nothing rendered yet. -/
def initialSys (hash0 : String) (store0 : Option String) : Sys :=
  { state := initialState
    hash := hash0
    store := store0
    scrollCount := 0
    renders := [] }

/-- Consistency of a state snapshot: the stored derived field equals the
derivation from the current raw fields. -/
def consistent (st : AppState) : Prop :=
  st.filteredCountries = derive st.countries st.searchTerm st.regionFilter

/-- Full-system consistency: the current state is consistent and so is
every snapshot ever handed to the renderer. -/
def goodSys (sys : Sys) : Prop :=
  consistent sys.state ∧ ∀ fr ∈ sys.renders, consistent fr

/-- Germany, as in the spec's section 8 example (entity A). -/
def germany : Country :=
  { name := { common := "Germany", nativeName := none }
    population := 0
    region := "Europe"
    capital := none
    flags := { svg := "", png := "" }
    cca3 := "DEU"
    subregion := none
    currencies := none
    languages := none
    borders := some ["FRA"] }

/-- Georgia, as in the spec's section 8 example (entity B). -/
def georgia : Country :=
  { name := { common := "Georgia", nativeName := none }
    population := 0
    region := "Asia"
    capital := none
    flags := { svg := "", png := "" }
    cca3 := "GEO"
    subregion := none
    currencies := none
    languages := none
    borders := none }

/-- A loaded system holding only Germany, for concrete witnesses. -/
def demoSys : Sys :=
  { state := { initialState with countries := [germany], filteredCountries := [germany] }
    hash := ""
    store := none
    scrollCount := 0
    renders := [] }

/-- A loaded system holding Germany and Georgia, for concrete witnesses. -/
def demoSys2 : Sys :=
  { state := { initialState with
      countries := [germany, georgia]
      filteredCountries := [germany, georgia] }
    hash := ""
    store := none
    scrollCount := 0
    renders := [] }

theorem goodSys_pushRender {sys : Sys} {st : AppState} (h : goodSys sys)
    (hst : consistent st) : goodSys (pushRender sys st) := by
  refine ⟨hst, ?_⟩
  intro fr hfr
  simp only [pushRender, List.mem_append, List.mem_singleton] at hfr
  rcases hfr with hfr | rfl
  · exact h.2 fr hfr
  · exact hst

theorem consistent_deriveUpdate (st : AppState) : consistent (deriveUpdate st) :=
  rfl

theorem goodSys_setCountries {sys : Sys} (h : goodSys sys) (v : List Country) :
    goodSys (setCountries v sys) :=
  goodSys_pushRender h (consistent_deriveUpdate _)

theorem goodSys_setSearchTerm {sys : Sys} (h : goodSys sys) (v : String) :
    goodSys (setSearchTerm v sys) :=
  goodSys_pushRender h (consistent_deriveUpdate _)

theorem goodSys_setRegionFilter {sys : Sys} (h : goodSys sys) (v : String) :
    goodSys (setRegionFilter v sys) :=
  goodSys_pushRender h (consistent_deriveUpdate _)

theorem goodSys_setLoading {sys : Sys} (h : goodSys sys) (v : Bool) :
    goodSys (setLoading v sys) :=
  goodSys_pushRender h h.1

theorem goodSys_setError {sys : Sys} (h : goodSys sys) (v : Option String) :
    goodSys (setError v sys) :=
  goodSys_pushRender h h.1

theorem goodSys_setDarkMode {sys : Sys} (h : goodSys sys) (v : Bool) :
    goodSys (setDarkMode v sys) :=
  goodSys_pushRender h h.1

theorem goodSys_setSelectedCountry {sys : Sys} (h : goodSys sys)
    (v : Option Country) : goodSys (setSelectedCountry v sys) :=
  goodSys_pushRender h h.1

theorem goodSys_handleRouting {sys : Sys} (h : goodSys sys) :
    goodSys (handleRouting sys) := by
  unfold handleRouting
  by_cases hh : sys.hash = ""
  · rw [if_pos hh]
    exact goodSys_setSelectedCountry h none
  · rw [if_neg hh]
    cases hf : sys.state.countries.find? (fun c => c.cca3 == sys.hash) with
    | none => exact goodSys_setSelectedCountry h none
    | some c => exact goodSys_setSelectedCountry h (some c)

theorem goodSys_applyOp (op : Op) {sys : Sys} (h : goodSys sys) :
    goodSys (applyOp op sys) := by
  cases op with
  | search v => exact goodSys_setSearchTerm h (strToLower v)
  | region v => exact goodSys_setRegionFilter h v
  | navigate t => exact goodSys_handleRouting h
  | back => exact goodSys_handleRouting h
  | fetchSuccess d =>
    exact goodSys_handleRouting (goodSys_setLoading (goodSys_setCountries h d) false)
  | fetchFailure m =>
    exact goodSys_setLoading (goodSys_setError h (some m)) false
  | toggleDark => exact goodSys_setDarkMode h (!sys.state.darkMode)

theorem goodSys_run (ops : List Op) :
    ∀ sys : Sys, goodSys sys → goodSys (run ops sys) := by
  induction ops with
  | nil => intro sys h; exact h
  | cons op ops ih =>
    intro sys h
    have hstep : run (op :: ops) sys = run ops (applyOp op sys) := rfl
    rw [hstep]
    exact ih _ (goodSys_applyOp op h)

theorem goodSys_initialSys (h0 : String) (s0 : Option String) :
    goodSys (initialSys h0 s0) := by
  refine ⟨rfl, ?_⟩
  intro fr hfr
  simp [initialSys] at hfr

theorem handleRouting_state_eq (sys : Sys) :
    (handleRouting sys).state =
      { sys.state with selectedCountry :=
          if sys.hash = "" then none
          else sys.state.countries.find? fun c => c.cca3 == sys.hash } := by
  unfold handleRouting
  by_cases hh : sys.hash = ""
  · simp [hh, setSelectedCountry, pushRender]
  · cases hf : sys.state.countries.find? (fun c => c.cca3 == sys.hash) with
    | none => simp [hh, hf, setSelectedCountry, pushRender]
    | some c => simp [hh, hf, setSelectedCountry, pushRender]

theorem handleRouting_hash (sys : Sys) : (handleRouting sys).hash = sys.hash := by
  unfold handleRouting
  by_cases hh : sys.hash = ""
  · simp [hh, setSelectedCountry, pushRender]
  · cases hf : sys.state.countries.find? (fun c => c.cca3 == sys.hash) with
    | none => simp [hh, hf, setSelectedCountry, pushRender]
    | some c => simp [hh, hf, setSelectedCountry, pushRender]

theorem onHashChange_state_eq (t : String) (sys : Sys) :
    (onHashChange t sys).state =
      { sys.state with selectedCountry :=
          if t = "" then none
          else sys.state.countries.find? fun c => c.cca3 == t } := by
  unfold onHashChange
  rw [handleRouting_state_eq]

theorem onHashChange_hash (t : String) (sys : Sys) :
    (onHashChange t sys).hash = t := by
  unfold onHashChange
  rw [handleRouting_hash]

theorem onHashChange_selected (t : String) (sys : Sys) :
    (onHashChange t sys).state.selectedCountry =
      if t = "" then none
      else sys.state.countries.find? fun c => c.cca3 == t := by
  rw [onHashChange_state_eq]

theorem onHashChange_countries (t : String) (sys : Sys) :
    (onHashChange t sys).state.countries = sys.state.countries := by
  rw [onHashChange_state_eq]

theorem onHashChange_loading (t : String) (sys : Sys) :
    (onHashChange t sys).state.loading = sys.state.loading := by
  rw [onHashChange_state_eq]

theorem onHashChange_error (t : String) (sys : Sys) :
    (onHashChange t sys).state.error = sys.state.error := by
  rw [onHashChange_state_eq]

theorem navState_congr {s t : Sys} (hh : s.hash = t.hash)
    (hsel : s.state.selectedCountry = t.state.selectedCountry)
    (hl : s.state.loading = t.state.loading) : navState s = navState t := by
  unfold navState
  rw [hh, hsel, hl]

/-- C1: Derivation correctness. For every collection, search text and
category filter (with the search text lower-case, as the setter
`handleSearch` guarantees by normalizing before storing), the derived
`filteredCountries` computed by the Proxy's derivation step equals the
filter by the spec's matching rule (`displayName` case-insensitively
contains the search text, and the category equals the filter or the filter
is empty), is an order-preserving subsequence of the collection, and
contains exactly the entities satisfying that rule. -/
theorem derive_is_spec_subsequence (c : List Country) (s f : String)
    (h : strToLower s = s) :
    derive c s f = List.filter (specVisible s f) c ∧
    (derive c s f).Sublist c ∧
    ∀ e, e ∈ derive c s f ↔ e ∈ c ∧ specVisible s f e = true := by
  have hpt : ∀ e ∈ c,
      (strIncludes (strToLower e.name.common) s &&
        (if f = "" then true else e.region == f)) = specVisible s f e := by
    intro e _
    unfold specVisible
    rw [h]
    by_cases hf : f = ""
    · subst hf; simp
    · rw [if_neg hf, beq_eq_false_iff_ne.mpr hf, Bool.false_or]
  have heq : derive c s f = List.filter (specVisible s f) c := by
    unfold derive
    exact List.filter_congr hpt
  refine ⟨heq, List.filter_sublist c, ?_⟩
  intro e
  rw [heq]
  simp [List.mem_filter]

/-- Witness for C1 at the spec's own example: searching "ge" with no
category filter over [Germany, Georgia]. -/
theorem derive_is_spec_subsequence_witness :
    strToLower "ge" = "ge" ∧
    derive [germany, georgia] "ge" "" =
      List.filter (specVisible "ge" "") [germany, georgia] :=
  ⟨by decide, (derive_is_spec_subsequence [germany, georgia] "ge" "" (by decide)).1⟩

/-- C2: Eager-consistency invariant. After any sequence of external events
(searching, filtering, navigating, fetch success or failure, dark-mode
toggling) from start-up — in particular when the fetch completes after a
non-empty search text or region filter was already set — the stored
`filteredCountries` equals the derivation of the current raw fields, and
every snapshot ever handed to the renderer was consistent in that sense: no
observable frame pairs a stale derived value with new raw inputs. -/
theorem state_always_consistent (ops : List Op) (hash0 : String)
    (store0 : Option String) :
    consistent (run ops (initialSys hash0 store0)).state ∧
    ∀ fr ∈ (run ops (initialSys hash0 store0)).renders, consistent fr :=
  goodSys_run ops _ (goodSys_initialSys hash0 store0)

/-- C3: Deep-link retry. A navigation token arriving while the collection
is still empty (initial load in flight) leaves NavigationState as
PendingUnresolved(token): the hash keeps the token and no entity is
selected. When the fetch then completes with data containing an entity
whose `cca3` resolves the token, `fetchCountriesData` re-runs
`handleRouting`, so NavigationState transitions to Selected(that id): the
pending deep link is re-resolved rather than silently dropped. -/
theorem deep_link_retry (sys : Sys) (token : String) (data : List Country)
    (e : Country) (hne : token ≠ "") (hload : sys.state.loading = true)
    (hempty : sys.state.countries = [])
    (hfind : data.find? (fun c => c.cca3 == token) = some e) :
    navState (applyOp (.navigate token) sys) = .pendingUnresolved token ∧
    navState (applyOp (.fetchSuccess data) (applyOp (.navigate token) sys)) =
      .selected e.cca3 ∧
    e.cca3 = token := by
  have hs1hash : (onHashChange token sys).hash = token := onHashChange_hash token sys
  have hs1sel : (onHashChange token sys).state.selectedCountry = none := by
    rw [onHashChange_selected, hempty]
    simp [hne]
  have hs1load : (onHashChange token sys).state.loading = true := by
    rw [onHashChange_loading]; exact hload
  refine ⟨?_, ?_, ?_⟩
  · show navState (onHashChange token sys) = .pendingUnresolved token
    unfold navState
    rw [hs1hash, hs1sel, hs1load]
    simp [hne]
  · show navState
      (handleRouting (setLoading false (setCountries data (onHashChange token sys)))) =
      .selected e.cca3
    have hthash :
        (setLoading false (setCountries data (onHashChange token sys))).hash = token := by
      show (onHashChange token sys).hash = token
      exact hs1hash
    have htc :
        (setLoading false (setCountries data (onHashChange token sys))).state.countries =
          data := rfl
    have hsel2 : (handleRouting
        (setLoading false (setCountries data (onHashChange token sys)))).state.selectedCountry =
        some e := by
      rw [handleRouting_state_eq]
      simp [hthash, hne, htc, hfind]
    have hh2 : (handleRouting
        (setLoading false (setCountries data (onHashChange token sys)))).hash = token := by
      rw [handleRouting_hash]; exact hthash
    unfold navState
    rw [hh2, hsel2]
    simp [hne]
  · simpa using List.find?_some hfind

/-- Witness for C3: a deep link to "GEO" arrives at start-up before any
data; the fetch then delivers Georgia and the link resolves. -/
theorem deep_link_retry_witness :
    navState (applyOp (.navigate "GEO") (initialSys "" none)) =
      .pendingUnresolved "GEO" ∧
    navState (applyOp (.fetchSuccess [georgia])
        (applyOp (.navigate "GEO") (initialSys "" none))) =
      .selected georgia.cca3 ∧
    georgia.cca3 = "GEO" :=
  deep_link_retry (initialSys "" none) "GEO" [georgia] georgia (by decide) rfl rfl
    (by decide)

/-- C5: Fallback on bad token. For every system state and every token
matching no entity's `cca3`, a navigation event on that token clears the
selection to none, leaves the error field untouched (no error state), and
`AppView` shows the list view — never a dangling selection of a nonexistent
entity. -/
theorem bad_token_falls_back (sys : Sys) (token : String)
    (hnone : ∀ c ∈ sys.state.countries, c.cca3 ≠ token) :
    (applyOp (.navigate token) sys).state.selectedCountry = none ∧
    (applyOp (.navigate token) sys).state.error = sys.state.error ∧
    currentView (applyOp (.navigate token) sys).state = .home := by
  have hsel : (applyOp (.navigate token) sys).state.selectedCountry = none := by
    show (onHashChange token sys).state.selectedCountry = none
    rw [onHashChange_selected]
    by_cases ht : token = ""
    · simp [ht]
    · rw [if_neg ht, List.find?_eq_none]
      intro x hx
      simpa using hnone x hx
  refine ⟨hsel, ?_, ?_⟩
  · exact onHashChange_error token sys
  · simp [currentView, hsel]

/-- Witness for C5: navigating to "Z" over a collection holding only
Germany. -/
theorem bad_token_falls_back_witness :
    (applyOp (.navigate "Z") demoSys).state.selectedCountry = none ∧
    (applyOp (.navigate "Z") demoSys).state.error = demoSys.state.error ∧
    currentView (applyOp (.navigate "Z") demoSys).state = .home :=
  bad_token_falls_back demoSys "Z" (by decide)

/-- C7: Idempotence of navigation. Delivering the same navigation token
twice in a row (as the re-entrant `hashchange` caused by the token write
itself would) yields the same NavigationState — same abstract state and
same selected entity — as delivering it once; state is never
double-applied. -/
theorem navigate_idempotent (sys : Sys) (a : String) :
    navState (applyOp (.navigate a) (applyOp (.navigate a) sys)) =
      navState (applyOp (.navigate a) sys) ∧
    (applyOp (.navigate a) (applyOp (.navigate a) sys)).state.selectedCountry =
      (applyOp (.navigate a) sys).state.selectedCountry := by
  have hsel : (onHashChange a (onHashChange a sys)).state.selectedCountry =
      (onHashChange a sys).state.selectedCountry := by
    rw [onHashChange_selected, onHashChange_countries, onHashChange_selected]
  refine ⟨navState_congr ?_ hsel (onHashChange_loading a (onHashChange a sys)), hsel⟩
  show (onHashChange a (onHashChange a sys)).hash = (onHashChange a sys).hash
  rw [onHashChange_hash, onHashChange_hash]

/-- C8: Relation-link behavior. For a border code present in the
collection, the border button shows that entity's display name and
navigating on it selects that entity; for a border code absent from the
collection, `getBorderName` falls back to the raw code as the label, no
selection is produced (NavigationState is never a resolved Selected form
for the missing id), and nothing crashes. -/
theorem relation_link_behavior (sys : Sys) (code : String) (hne : code ≠ "") :
    (sys.state.countries.find? (fun c => c.cca3 == code) = none →
      getBorderName sys.state.countries code = code ∧
      (applyOp (.navigate code) sys).state.selectedCountry = none) ∧
    ∀ e, sys.state.countries.find? (fun c => c.cca3 == code) = some e →
      getBorderName sys.state.countries code = e.name.common ∧
      (applyOp (.navigate code) sys).state.selectedCountry = some e ∧
      e.cca3 = code := by
  have hsel : (applyOp (.navigate code) sys).state.selectedCountry =
      sys.state.countries.find? fun c => c.cca3 == code := by
    show (onHashChange code sys).state.selectedCountry = _
    rw [onHashChange_selected]
    simp [hne]
  constructor
  · intro hf
    constructor
    · unfold getBorderName
      rw [hf]
    · rw [hsel, hf]
  · intro e hf
    refine ⟨?_, ?_, ?_⟩
    · unfold getBorderName
      rw [hf]
    · rw [hsel, hf]
    · simpa using List.find?_some hf

/-- Witness for C8: Germany's border list contains "FRA" (absent from the
collection: raw code shown, nothing selected) and the collection contains
Georgia under "GEO" (present: name shown, Georgia selected). -/
theorem relation_link_behavior_witness :
    (getBorderName [germany, georgia] "FRA" = "FRA" ∧
      (applyOp (.navigate "FRA") demoSys2).state.selectedCountry = none) ∧
    (getBorderName [germany, georgia] "GEO" = georgia.name.common ∧
      (applyOp (.navigate "GEO") demoSys2).state.selectedCountry = some georgia ∧
      georgia.cca3 = "GEO") := by
  constructor
  · exact (relation_link_behavior demoSys2 "FRA" (by decide)).1 (by decide)
  · exact (relation_link_behavior demoSys2 "GEO" (by decide)).2 georgia (by decide)

/-- C10: Token-to-entity resolution is a case-sensitive exact string
comparison on `cca3`: a navigation event selects an entity iff some entity
of the collection has `cca3` equal to the token character for character,
and whatever gets selected carries exactly that id. A token differing from
an existing id only in letter case therefore resolves to none, even though
display-name search matching is case-insensitive. -/
theorem navigation_resolution_exact (sys : Sys) (token : String)
    (hne : token ≠ "") :
    (((applyOp (.navigate token) sys).state.selectedCountry).isSome = true ↔
      ∃ c ∈ sys.state.countries, c.cca3 = token) ∧
    ∀ e, (applyOp (.navigate token) sys).state.selectedCountry = some e →
      e ∈ sys.state.countries ∧ e.cca3 = token := by
  have hsel : (applyOp (.navigate token) sys).state.selectedCountry =
      sys.state.countries.find? fun c => c.cca3 == token := by
    show (onHashChange token sys).state.selectedCountry = _
    rw [onHashChange_selected]
    simp [hne]
  constructor
  · rw [hsel]
    rw [show (((sys.state.countries.find? fun c => c.cca3 == token)).isSome = true) =
      ((sys.state.countries.find? fun c => c.cca3 == token)).isSome from rfl]
    rw [List.find?_isSome]
    constructor
    · rintro ⟨x, hx, hp⟩
      exact ⟨x, hx, by simpa using hp⟩
    · rintro ⟨x, hx, hp⟩
      exact ⟨x, hx, by simpa using hp⟩
  · intro e he
    rw [hsel] at he
    exact ⟨List.mem_of_find?_eq_some he, by simpa using List.find?_some he⟩

/-- Witness for C10: over a collection holding Germany under "DEU", the
token "DEU" selects, while "deu" — differing only in case — does not. -/
theorem navigation_resolution_exact_witness :
    ((applyOp (.navigate "DEU") demoSys).state.selectedCountry).isSome = true ∧
    ((applyOp (.navigate "deu") demoSys).state.selectedCountry).isSome = false := by
  constructor
  · exact (navigation_resolution_exact demoSys "DEU" (by decide)).1.mpr
      ⟨germany, by decide⟩
  · have h := (navigation_resolution_exact demoSys "deu" (by decide)).1
    cases hb : ((applyOp (.navigate "deu") demoSys).state.selectedCountry).isSome with
    | false => rfl
    | true => exact absurd (h.mp hb) (by decide)

/-- Witness for C2 at the scenario the claim singles out: a search text is
set while the initial load is still in flight, then the fetch completes;
the stored derived list matches the derivation of the current raw fields. -/
theorem state_always_consistent_witness :
    consistent (run [Op.search "GE", Op.fetchSuccess [germany, georgia]]
      (initialSys "" none)).state :=
  (state_always_consistent [Op.search "GE", Op.fetchSuccess [germany, georgia]]
    "" none).1

theorem handleRouting_renders_eq (sys : Sys) :
    (handleRouting sys).renders = sys.renders ++ [(handleRouting sys).state] := by
  unfold handleRouting
  by_cases hh : sys.hash = ""
  · simp [hh, setSelectedCountry, pushRender]
  · cases hf : sys.state.countries.find? (fun c => c.cca3 == sys.hash) with
    | none => simp [hh, hf, setSelectedCountry, pushRender]
    | some c => simp [hh, hf, setSelectedCountry, pushRender]

theorem handleRouting_renders_length (sys : Sys) :
    (handleRouting sys).renders.length = sys.renders.length + 1 := by
  rw [handleRouting_renders_eq]
  simp

/-- C4 counterexample: the mutation batch of a successful fetch — populate
the collection, clear the loading flag, re-validate navigation — does NOT
collapse into a single render pass. From start-up it produces three render
passes, and the first rendered frame pairs the already-populated collection
with the still-set loading flag: an intermediate frame in which only some
of the batch's writes are applied. -/
theorem no_batching_counterexample :
    (applyOp (.fetchSuccess [germany]) (initialSys "" none)).renders.length ≠ 1 ∧
    ((applyOp (.fetchSuccess [germany]) (initialSys "" none)).renders.head?.map
      (fun fr => (fr.loading, fr.countries))) = some (true, [germany]) := by
  decide

/-- C4 (amended): each individual raw-field write triggers exactly one
derivation update and exactly one render pass — but synchronous writes
within one logical action are not batched: each write renders on its own,
so a successful fetch performs three render passes (collection write,
loading-flag write, navigation re-validation), and the first of those
frames still carries the old loading flag while already holding the new
collection. Every frame is internally consistent (see the C2 theorem), but
intermediate frames of a multi-write action are observable. -/
theorem renders_per_write (sys : Sys) (v : String) (data : List Country)
    (msg : String) :
    (applyOp (.search v) sys).renders.length = sys.renders.length + 1 ∧
    (applyOp (.region v) sys).renders.length = sys.renders.length + 1 ∧
    (applyOp (.navigate v) sys).renders.length = sys.renders.length + 1 ∧
    (applyOp .toggleDark sys).renders.length = sys.renders.length + 1 ∧
    (applyOp (.fetchFailure msg) sys).renders.length = sys.renders.length + 2 ∧
    (applyOp (.fetchSuccess data) sys).renders.length = sys.renders.length + 3 ∧
    (((applyOp (.fetchSuccess data) sys).renders.drop sys.renders.length).head?.map
      (fun fr => (fr.countries, fr.loading))) = some (data, sys.state.loading) := by
  have hnav : ∀ t : String,
      (onHashChange t sys).renders.length = sys.renders.length + 1 := by
    intro t
    unfold onHashChange
    rw [handleRouting_renders_length]
  have hfs : (applyOp (.fetchSuccess data) sys).renders =
      sys.renders ++
        ([deriveUpdate { sys.state with countries := data }] ++
          ([{ (deriveUpdate { sys.state with countries := data }) with
              loading := false }] ++
            [(handleRouting
              (setLoading false (setCountries data sys))).state])) := by
    show (handleRouting (setLoading false (setCountries data sys))).renders = _
    rw [handleRouting_renders_eq]
    simp [setLoading, setCountries, pushRender]
  refine ⟨?_, ?_, hnav v, ?_, ?_, ?_, ?_⟩
  · simp [applyOp, handleSearch, setSearchTerm, pushRender]
  · simp [applyOp, handleRegionFilter, setRegionFilter, pushRender]
  · simp [applyOp, toggleDarkMode, setDarkMode, pushRender]
  · simp [applyOp, fetchFailure, setLoading, setError, pushRender]
  · rw [show (applyOp (.fetchSuccess data) sys).renders =
      (handleRouting (setLoading false (setCountries data sys))).renders from rfl]
    rw [handleRouting_renders_length]
    simp [setLoading, setCountries, pushRender]
  · rw [hfs, List.drop_left]
    rfl

/-- C6: Fetch-failure handling. The failure path of `fetchCountriesData`
records the failure message as the user-visible error, clears the loading
flag, and leaves the collection and the derived visible list untouched;
from start-up both therefore stay empty. The exception is caught inside the
handler (the model is a total function) and nothing in the core ever
re-fetches, so the failure is terminal for that load attempt. -/
theorem fetch_failure_terminal (sys : Sys) (msg : String) :
    (applyOp (.fetchFailure msg) sys).state.error = some msg ∧
    (applyOp (.fetchFailure msg) sys).state.loading = false ∧
    (applyOp (.fetchFailure msg) sys).state.countries = sys.state.countries ∧
    (applyOp (.fetchFailure msg) sys).state.filteredCountries =
      sys.state.filteredCountries ∧
    (applyOp (.fetchFailure msg) (initialSys "" none)).state.countries = [] ∧
    (applyOp (.fetchFailure msg) (initialSys "" none)).state.filteredCountries =
      [] :=
  ⟨rfl, rfl, rfl, rfl, rfl, rfl⟩

/-- C9: Dark-mode preference fallback and orthogonality. At start-up the
flag is the stored value when the key is present ("true" gives dark,
"false" gives light regardless of the system preference), otherwise the
system color-scheme preference, otherwise false; each toggle flips the flag
and writes the new value back to the preference store; and toggling never
touches the collection, the derived visible list, the selection, the search
term, the region filter, or the navigation hash. -/
theorem dark_mode_pref (sysDark : Bool) (sys : Sys) :
    darkModeInit (some "true") sysDark = true ∧
    darkModeInit (some "false") sysDark = false ∧
    darkModeInit none sysDark = sysDark ∧
    (applyOp .toggleDark sys).state.darkMode = !sys.state.darkMode ∧
    (applyOp .toggleDark sys).store =
      some (if (applyOp .toggleDark sys).state.darkMode then "true" else "false") ∧
    (applyOp .toggleDark sys).state.countries = sys.state.countries ∧
    (applyOp .toggleDark sys).state.filteredCountries =
      sys.state.filteredCountries ∧
    (applyOp .toggleDark sys).state.selectedCountry = sys.state.selectedCountry ∧
    (applyOp .toggleDark sys).state.searchTerm = sys.state.searchTerm ∧
    (applyOp .toggleDark sys).state.regionFilter = sys.state.regionFilter ∧
    (applyOp .toggleDark sys).hash = sys.hash :=
  ⟨rfl, rfl, rfl, rfl, rfl, rfl, rfl, rfl, rfl, rfl, rfl⟩

end FemCountries
